import Mathlib

/-!
Verification of the cross-modal detection association stage of the CTS
repository (`pcdet/models/detectors/fusion_rcnn.py`), centred on the two
cited post-processing variants `fusion_post_processing8` (lines 2732-3011)
and `fusion_post_processing9` (lines 3013-3291).

The embedding keeps the source's data flow: per-frame candidate index
lists `select_from_2d` / `select_from_3d`, projection of selected 3D boxes
to image boxes followed by component-wise clamping into the frame's valid
range, a dense IoU matrix, a greedy maximum-IoU matching loop with hard
stop, and (in variant 8 only) a score-thresholded salvage pass.  Scores
and coordinates are modelled as rationals, labels as integers; tensors
indexed through the `inverse_idx` maps become functions of the original
proposal index.
-/

namespace CTS

/-- An axis-aligned 2D image box `[x1, y1, x2, y2]` (`Detection2D` /
projected footprint). -/
structure Box2D where
  x1 : ℚ
  y1 : ℚ
  x2 : ℚ
  y2 : ℚ
deriving DecidableEq, Repr

/-- A 3D box `[x, y, z, dx, dy, dz, heading]` (`Detection3D`). -/
structure Box3D where
  x : ℚ
  y : ℚ
  z : ℚ
  dx : ℚ
  dy : ℚ
  dz : ℚ
  heading : ℚ
deriving DecidableEq, Repr

/-- The frame's valid image sub-rectangle `image_valid_range[0..3] =
[x_min, y_min, x_max, y_max]`. -/
structure ValidRange where
  xmin : ℚ
  ymin : ℚ
  xmax : ℚ
  ymax : ℚ
deriving DecidableEq, Repr

/-- One emitted detection record: the parallel entries appended to
`final_scores_2d / final_labels_2d / final_boxes_2d / final_scores_3d /
final_labels_3d / final_boxes_3d` at one position. -/
structure FinalDet where
  s2 : ℚ
  l2 : ℤ
  b2 : Box2D
  s3 : ℚ
  l3 : ℤ
  b3 : Box3D
deriving DecidableEq, Repr

/-- The post-processing thresholds read from
`self.model_cfg.POST_PROCESSING`. -/
structure Config where
  iou_thresh : ℚ
  cls_thresh_2d : ℚ
  cls_thresh_3d : ℚ
deriving DecidableEq, Repr

/-- Per-frame inputs to the association stage, as they stand right before
the `# union 2d & 3d results` block: the kept index lists, and the tensors
read through original proposal indices (accesses through `inverse_idx_2d`
/ `inverse_idx_3d` are composed away, those maps being bijections between
kept original indices and tensor rows). `rawProj` is the unclamped output
of `lidar_box_to_image_box` for the 3D candidate kept at that index. -/
structure FrameInput where
  sel2d : List ℕ
  sel3d : List ℕ
  box2d : ℕ → Box2D
  rawProj : ℕ → Box2D
  box3d : ℕ → Box3D
  score2d : ℕ → ℚ
  score3d : ℕ → ℚ
  label2d : ℕ → ℤ
  label3d : ℕ → ℤ
  vr : ValidRange

/-- The association output of one frame: the four index groups plus the
emitted parallel record lists.  `matched` holds `(2D index, 3D index)`
pairs; the source keeps the dropped indices implicit (they are popped and
never appended), here they are the explicit complement lists. -/
structure AssocResult where
  matched : List (ℕ × ℕ)
  only2d : List ℕ
  only3d : List ℕ
  dropped2d : List ℕ
  dropped3d : List ℕ
  final : List FinalDet

/-- `torch.clamp_(lo, hi)` on one scalar: `min (max v lo) hi`. -/
def clampQ (v lo hi : ℚ) : ℚ := min (max v lo) hi

/-- The four `select_project_box[:, k].clamp_` calls (lines 2832-2843 /
3113-3124): x-coordinates (columns 0 and 2) are clamped into
`[x_min, x_max - 1]`, y-coordinates (columns 1 and 3) into
`[y_min, y_max - 1]`. -/
def clampBox (vr : ValidRange) (b : Box2D) : Box2D :=
  { x1 := clampQ b.x1 vr.xmin (vr.xmax - 1)
    y1 := clampQ b.y1 vr.ymin (vr.ymax - 1)
    x2 := clampQ b.x2 vr.xmin (vr.xmax - 1)
    y2 := clampQ b.y2 vr.ymin (vr.ymax - 1) }

/-- Modelled from the spec: `boxes_iou_normal` lives in
`pcdet/utils/box_utils.py`, which is not under `src/`; only its import and
call sites are.  Per the spec's glossary and §4.3, it returns the
axis-aligned intersection-over-union, area(intersection)/area(union), in
`[0,1]`, with a zero-area box giving IoU 0 (rational division by zero
returns 0). -/
def boxes_iou_normal (a b : Box2D) : ℚ :=
  let ix := max 0 (min a.x2 b.x2 - max a.x1 b.x1)
  let iy := max 0 (min a.y2 b.y2 - max a.y1 b.y1)
  let inter := ix * iy
  let areaA := max 0 (a.x2 - a.x1) * max 0 (a.y2 - a.y1)
  let areaB := max 0 (b.x2 - b.x1) * max 0 (b.y2 - b.y1)
  inter / (areaA + areaB - inter)

/-- `select_project_box[inverse_idx_3d[i]]`: the ValidRange-clamped
projected footprint of the 3D candidate kept at original index `i`. -/
def clampProj (inp : FrameInput) (i : ℕ) : Box2D := clampBox inp.vr (inp.rawProj i)

/-- `iou_matrix[inverse_idx_2d[j], inverse_idx_3d[i]]`: the matrix entry
for 2D candidate `j` against 3D candidate `i` — native 2D box against the
clamped projected box. -/
def frameIou (inp : FrameInput) (j i : ℕ) : ℚ :=
  boxes_iou_normal (inp.box2d j) (clampProj inp i)

/-- `sorted(list(set(...)))` applied to a kept-index tensor. -/
def sortedDedup (l : List ℕ) : List ℕ :=
  l.dedup.insertionSort (· ≤ ·)

/-- The record appended for a matched pair `(j, i)` (both the
index-identity loop of variant 8 and the greedy commit): 2D fields from
the 2D candidate, 3D fields from the 3D candidate. -/
def mkMatched (inp : FrameInput) (j i : ℕ) : FinalDet :=
  { s2 := inp.score2d j, l2 := inp.label2d j, b2 := inp.box2d j
    s3 := inp.score3d i, l3 := inp.label3d i, b3 := inp.box3d i }

/-- The record appended for a salvaged 2D-only candidate `j` in variant 8
(lines 2886-2894): 2D fields from the 2D candidate, the surrogate 3D
score/label copied from the 2D ones, and — note — an actual 3D box,
`box_preds_3d[idx2d]`, the 3D proposal box at the 2D candidate's own
index (line 2892). -/
def mkOnly2d (inp : FrameInput) (j : ℕ) : FinalDet :=
  { s2 := inp.score2d j, l2 := inp.label2d j, b2 := inp.box2d j
    s3 := inp.score2d j, l3 := inp.label2d j, b3 := inp.box3d j }

/-- The record appended for a salvaged 3D-only candidate `i` in variant 8
(lines 2899-2909): the surrogate 2D box is `select_project_box[_i]`, the
clamped projected footprint, and the surrogate 2D score/label are the 3D
ones. -/
def mkOnly3d (inp : FrameInput) (i : ℕ) : FinalDet :=
  { s2 := inp.score3d i, l2 := inp.label3d i, b2 := clampProj inp i
    s3 := inp.score3d i, l3 := inp.label3d i, b3 := inp.box3d i }

/-- Left-to-right scan keeping the current maximum under `iou`, replacing
the incumbent only on a strictly larger value — the semantics of
`torch.argmax` (first maximal cell) on the flattened row-major submatrix. -/
def bestPairAux (iou : ℕ → ℕ → ℚ) : (ℕ × ℕ) → List (ℕ × ℕ) → ℕ × ℕ
  | p, [] => p
  | p, q :: qs => bestPairAux iou (if iou p.1 p.2 < iou q.1 q.2 then q else p) qs

/-- First maximum of a pair list under `iou` (`none` on the empty list). -/
def bestPair (iou : ℕ → ℕ → ℚ) : List (ℕ × ℕ) → Option (ℕ × ℕ)
  | [] => none
  | p :: ps => some (bestPairAux iou p ps)

/-- The row-major enumeration of `sub_iou_matrix`'s cells: remaining 2D
indices (rows) paired with remaining 3D indices (columns). -/
def pairTable (r2 r3 : List ℕ) : List (ℕ × ℕ) :=
  r2.flatMap (fun a => r3.map (fun b => (a, b)))

/-- `torch.argmax(sub_iou_matrix)` decoded back to original indices. -/
def argmaxPair (iou : ℕ → ℕ → ℚ) (r2 r3 : List ℕ) : Option (ℕ × ℕ) :=
  bestPair iou (pairTable r2 r3)

/-- The greedy matching loop (lines 2880-2934 / 3161-3215), abstracted
over the IoU table: while both candidate lists are nonempty, take the
globally maximal remaining pair; if its IoU passes `iou_thresh`
(inclusive `>=`, line 2920 / 3201) commit it and remove both indices,
otherwise stop — the `non_match` hard stop.  Returns the committed pairs
in commit order and the two remaining lists.  `fuel` bounds the number of
iterations; every call site passes at least the length of the 2D list,
which each commit shrinks by one, so the fuel case is never the one that
stops a run. -/
def greedyLoop (iou : ℕ → ℕ → ℚ) (t : ℚ) :
    ℕ → List ℕ → List ℕ → List (ℕ × ℕ) × List ℕ × List ℕ
  | 0, r2, r3 => ([], r2, r3)
  | fuel + 1, r2, r3 =>
    match argmaxPair iou r2 r3 with
    | none => ([], r2, r3)
    | some p =>
      if t ≤ iou p.1 p.2 then
        let g := greedyLoop iou t fuel (r2.erase p.1) (r3.erase p.2)
        (p :: g.1, g.2.1, g.2.2)
      else ([], r2, r3)

/-- `indices_both = indices_2d & indices_3d` (line 2862): the proposal
indices kept by both branches, which variant 8 commits unconditionally. -/
def bothIdx8 (inp : FrameInput) : List ℕ :=
  (sortedDedup inp.sel2d).filter (fun i => i ∈ sortedDedup inp.sel3d)

/-- `indices_2d -= indices_both` then `sorted(list(...))` (lines
2863-2865): the 2D candidates entering the greedy loop of variant 8. -/
def rem2of8 (inp : FrameInput) : List ℕ :=
  (sortedDedup inp.sel2d).filter (fun i => i ∉ sortedDedup inp.sel3d)

/-- `indices_3d -= indices_both` then `sorted(list(...))` (lines
2864-2866): the 3D candidates entering the greedy loop of variant 8. -/
def rem3of8 (inp : FrameInput) : List ℕ :=
  (sortedDedup inp.sel3d).filter (fun i => i ∉ sortedDedup inp.sel2d)

/-- The greedy loop of variant 8, run on the remainders after removing
`indices_both`. -/
def greedy8 (cfg : Config) (inp : FrameInput) :
    List (ℕ × ℕ) × List ℕ × List ℕ :=
  greedyLoop (frameIou inp) cfg.iou_thresh (rem2of8 inp).length
    (rem2of8 inp) (rem3of8 inp)

/-- `fusion_post_processing8`, per-frame association core (lines
2844-2934): dedup-sort both kept index sets, commit every index present in
both sets unconditionally (`indices_both`, lines 2862-2879), run the
greedy loop on the remainders, then salvage — a remaining 2D candidate is
kept iff its score is `>= cls_thresh_2d` (line 2886), a remaining 3D
candidate iff its score is `> cls_thresh_3d` (line 2899); the `.pop()`
calls consume the sorted lists from the back, so salvage emits in
descending index order. -/
def fusion_post_processing8 (cfg : Config) (inp : FrameInput) : AssocResult :=
  let g := greedy8 cfg inp
  let r2 := g.2.1.reverse
  let r3 := g.2.2.reverse
  let only2d := r2.filter (fun j => cfg.cls_thresh_2d ≤ inp.score2d j)
  let dropped2d := r2.filter (fun j => ¬ cfg.cls_thresh_2d ≤ inp.score2d j)
  let only3d := r3.filter (fun i => cfg.cls_thresh_3d < inp.score3d i)
  let dropped3d := r3.filter (fun i => ¬ cfg.cls_thresh_3d < inp.score3d i)
  { matched := (bothIdx8 inp).map (fun i => (i, i)) ++ g.1
    only2d := only2d
    only3d := only3d
    dropped2d := dropped2d
    dropped3d := dropped3d
    final := (bothIdx8 inp).map (fun i => mkMatched inp i i)
      ++ g.1.map (fun p => mkMatched inp p.1 p.2)
      ++ only2d.map (mkOnly2d inp)
      ++ only3d.map (mkOnly3d inp) }

/-- The greedy loop of variant 9, run directly on the full dedup-sorted
kept index lists (no `indices_both` removal). -/
def greedy9 (cfg : Config) (inp : FrameInput) :
    List (ℕ × ℕ) × List ℕ × List ℕ :=
  greedyLoop (frameIou inp) cfg.iou_thresh (sortedDedup inp.sel2d).length
    (sortedDedup inp.sel2d) (sortedDedup inp.sel3d)

/-- `fusion_post_processing9`, per-frame association core (lines
3125-3215): same greedy loop, but the `indices_both` pre-matching and the
whole salvage pass are commented out in the source (lines 3143-3160,
3164-3190) — on the hard stop the loop just breaks, so every remaining
unmatched candidate on either side is dropped, and `only2d` / `only3d`
are always empty. -/
def fusion_post_processing9 (cfg : Config) (inp : FrameInput) : AssocResult :=
  let g := greedy9 cfg inp
  { matched := g.1
    only2d := []
    only3d := []
    dropped2d := g.2.1
    dropped3d := g.2.2
    final := g.1.map (fun p => mkMatched inp p.1 p.2) }

/-! ### Concrete frames used to instantiate the theorems -/

/-- A unit box `[0,0,1,1]`. -/
def boxUnit : Box2D := ⟨0, 0, 1, 1⟩

/-- A box disjoint from `boxUnit`. -/
def boxFar : Box2D := ⟨5, 5, 6, 6⟩

/-- A nonzero 3D proposal box. -/
def box3dEx : Box3D := ⟨1, 2, 3, 4, 5, 6, 7⟩

/-- A valid range `[0,0,10,10]` under which unit boxes clamp to
themselves. -/
def vrEx : ValidRange := ⟨0, 0, 10, 10⟩

/-- Thresholds `iou_thresh = cls_thresh_2d = cls_thresh_3d = 1`. -/
def cfgOne : Config := ⟨1, 1, 1⟩

/-- Thresholds with `iou_thresh = 0` and salvage thresholds `1`. -/
def cfgZero : Config := ⟨0, 1, 1⟩

/-- A frame with no 2D candidates and one confident 3D candidate. -/
def inpOnly3d : FrameInput :=
  { sel2d := [], sel3d := [0], box2d := fun _ => boxUnit
    rawProj := fun _ => boxUnit, box3d := fun _ => box3dEx
    score2d := fun _ => 0, score3d := fun _ => 2
    label2d := fun _ => 1, label3d := fun _ => 2, vr := vrEx }

/-- A frame with no 2D candidates and one 3D candidate whose score sits
exactly at `cls_thresh_3d = 1`. -/
def inpBoundary3d : FrameInput :=
  { sel2d := [], sel3d := [0], box2d := fun _ => boxUnit
    rawProj := fun _ => boxUnit, box3d := fun _ => box3dEx
    score2d := fun _ => 0, score3d := fun _ => 1
    label2d := fun _ => 1, label3d := fun _ => 2, vr := vrEx }

/-- A frame with one confident 2D candidate (index 5) and no 3D
candidates. -/
def inpOnly2d : FrameInput :=
  { sel2d := [5], sel3d := [], box2d := fun _ => boxUnit
    rawProj := fun _ => boxUnit, box3d := fun _ => box3dEx
    score2d := fun _ => 2, score3d := fun _ => 0
    label2d := fun _ => 1, label3d := fun _ => 2, vr := vrEx }

/-- A frame with one 2D and one 3D candidate whose boxes coincide, so
their IoU is exactly 1. -/
def inpPair : FrameInput :=
  { sel2d := [0], sel3d := [1], box2d := fun _ => boxUnit
    rawProj := fun _ => boxUnit, box3d := fun _ => box3dEx
    score2d := fun _ => 2, score3d := fun _ => 2
    label2d := fun _ => 1, label3d := fun _ => 2, vr := vrEx }

/-- A frame with one 2D and one 3D candidate whose boxes are disjoint
(IoU 0) and whose scores are high. -/
def inpDisjoint : FrameInput :=
  { sel2d := [1], sel3d := [2], box2d := fun _ => boxUnit
    rawProj := fun _ => boxFar, box3d := fun _ => box3dEx
    score2d := fun _ => 2, score3d := fun _ => 2
    label2d := fun _ => 1, label3d := fun _ => 2, vr := vrEx }

/-- A frame in which proposal index 3 was kept by both branches, with
disjoint boxes (IoU 0) and scores below every threshold. -/
def inpShared : FrameInput :=
  { sel2d := [3], sel3d := [3], box2d := fun _ => boxUnit
    rawProj := fun _ => boxFar, box3d := fun _ => box3dEx
    score2d := fun _ => 0, score3d := fun _ => 0
    label2d := fun _ => 1, label3d := fun _ => 2, vr := vrEx }

/-- A frame with no candidates at all. -/
def inpEmpty : FrameInput :=
  { sel2d := [], sel3d := [], box2d := fun _ => boxUnit
    rawProj := fun _ => boxUnit, box3d := fun _ => box3dEx
    score2d := fun _ => 0, score3d := fun _ => 0
    label2d := fun _ => 1, label3d := fun _ => 2, vr := vrEx }

/-! ### Lemmas about the argmax scan -/

theorem bestPairAux_eq_or_mem (iou : ℕ → ℕ → ℚ) :
    ∀ (l : List (ℕ × ℕ)) (p : ℕ × ℕ),
      bestPairAux iou p l = p ∨ bestPairAux iou p l ∈ l := by
  intro l
  induction l with
  | nil => intro p; simp [bestPairAux]
  | cons q qs ih =>
    intro p
    simp only [bestPairAux]
    rcases ih (if iou p.1 p.2 < iou q.1 q.2 then q else p) with h | h
    · rw [h]
      split
      · exact Or.inr (List.mem_cons_self ..)
      · exact Or.inl rfl
    · exact Or.inr (List.mem_cons_of_mem _ h)

theorem bestPairAux_seed_le (iou : ℕ → ℕ → ℚ) :
    ∀ (l : List (ℕ × ℕ)) (p : ℕ × ℕ),
      iou p.1 p.2 ≤ iou (bestPairAux iou p l).1 (bestPairAux iou p l).2 := by
  intro l
  induction l with
  | nil => intro p; simp [bestPairAux]
  | cons q qs ih =>
    intro p
    simp only [bestPairAux]
    refine le_trans ?_ (ih (if iou p.1 p.2 < iou q.1 q.2 then q else p))
    split
    · exact le_of_lt (by assumption)
    · exact le_refl _

theorem bestPairAux_le (iou : ℕ → ℕ → ℚ) :
    ∀ (l : List (ℕ × ℕ)) (p q : ℕ × ℕ), q ∈ l →
      iou q.1 q.2 ≤ iou (bestPairAux iou p l).1 (bestPairAux iou p l).2 := by
  intro l
  induction l with
  | nil => intro p q hq; simp at hq
  | cons a as ih =>
    intro p q hq
    simp only [bestPairAux]
    rcases List.mem_cons.mp hq with rfl | hq2
    · refine le_trans ?_ (bestPairAux_seed_le iou as _)
      split
      · exact le_refl _
      · exact not_lt.mp (by assumption)
    · exact ih _ q hq2

theorem bestPair_mem {iou : ℕ → ℕ → ℚ} {l : List (ℕ × ℕ)} {p : ℕ × ℕ}
    (h : bestPair iou l = some p) : p ∈ l := by
  cases l with
  | nil => simp [bestPair] at h
  | cons a as =>
    simp only [bestPair, Option.some.injEq] at h
    subst h
    rcases bestPairAux_eq_or_mem iou as a with h2 | h2
    · rw [h2]; exact List.mem_cons_self ..
    · exact List.mem_cons_of_mem _ h2

theorem bestPair_le {iou : ℕ → ℕ → ℚ} {l : List (ℕ × ℕ)} {p : ℕ × ℕ}
    (h : bestPair iou l = some p) :
    ∀ q ∈ l, iou q.1 q.2 ≤ iou p.1 p.2 := by
  cases l with
  | nil => intro q hq; simp at hq
  | cons a as =>
    simp only [bestPair, Option.some.injEq] at h
    subst h
    intro q hq
    rcases List.mem_cons.mp hq with rfl | hq2
    · exact bestPairAux_seed_le iou as q
    · exact bestPairAux_le iou as a q hq2

theorem mem_pairTable {r2 r3 : List ℕ} {p : ℕ × ℕ} :
    p ∈ pairTable r2 r3 ↔ p.1 ∈ r2 ∧ p.2 ∈ r3 := by
  obtain ⟨a, b⟩ := p
  simp [pairTable]

theorem argmaxPair_mem {iou : ℕ → ℕ → ℚ} {r2 r3 : List ℕ} {p : ℕ × ℕ}
    (h : argmaxPair iou r2 r3 = some p) : p.1 ∈ r2 ∧ p.2 ∈ r3 :=
  mem_pairTable.mp (bestPair_mem h)

theorem argmaxPair_le {iou : ℕ → ℕ → ℚ} {r2 r3 : List ℕ} {p : ℕ × ℕ}
    (h : argmaxPair iou r2 r3 = some p) :
    ∀ a ∈ r2, ∀ b ∈ r3, iou a b ≤ iou p.1 p.2 := by
  intro a ha b hb
  exact bestPair_le h (a, b) (mem_pairTable.mpr ⟨ha, hb⟩)

theorem argmaxPair_eq_none {iou : ℕ → ℕ → ℚ} {r2 r3 : List ℕ}
    (h : argmaxPair iou r2 r3 = none) : r2 = [] ∨ r3 = [] := by
  cases r2 with
  | nil => exact Or.inl rfl
  | cons a as =>
    cases r3 with
    | nil => exact Or.inr rfl
    | cons b bs =>
      exfalso
      have hmem : (a, b) ∈ pairTable (a :: as) (b :: bs) :=
        mem_pairTable.mpr ⟨List.mem_cons_self .., List.mem_cons_self ..⟩
      unfold argmaxPair at h
      cases hpt : pairTable (a :: as) (b :: bs) with
      | nil => rw [hpt] at hmem; simp at hmem
      | cons q qs => rw [hpt] at h; simp [bestPair] at h

/-! ### Unfolding equations for the greedy loop -/

theorem greedyLoop_zero (iou : ℕ → ℕ → ℚ) (t : ℚ) (r2 r3 : List ℕ) :
    greedyLoop iou t 0 r2 r3 = ([], r2, r3) := rfl

theorem greedyLoop_succ_none {iou : ℕ → ℕ → ℚ} {r2 r3 : List ℕ} (t : ℚ) (n : ℕ)
    (h : argmaxPair iou r2 r3 = none) :
    greedyLoop iou t (n + 1) r2 r3 = ([], r2, r3) := by
  simp [greedyLoop, h]

theorem greedyLoop_succ_pos {iou : ℕ → ℕ → ℚ} {r2 r3 : List ℕ} {t : ℚ} {p : ℕ × ℕ}
    (n : ℕ) (h : argmaxPair iou r2 r3 = some p) (ht : t ≤ iou p.1 p.2) :
    greedyLoop iou t (n + 1) r2 r3 =
      (p :: (greedyLoop iou t n (r2.erase p.1) (r3.erase p.2)).1,
        (greedyLoop iou t n (r2.erase p.1) (r3.erase p.2)).2.1,
        (greedyLoop iou t n (r2.erase p.1) (r3.erase p.2)).2.2) := by
  simp [greedyLoop, h, ht]

theorem greedyLoop_succ_neg {iou : ℕ → ℕ → ℚ} {r2 r3 : List ℕ} {t : ℚ} {p : ℕ × ℕ}
    (n : ℕ) (h : argmaxPair iou r2 r3 = some p) (ht : ¬ t ≤ iou p.1 p.2) :
    greedyLoop iou t (n + 1) r2 r3 = ([], r2, r3) := by
  simp [greedyLoop, h, ht]

/-! ### Lemmas about the greedy matching loop -/

theorem greedy_perm_fst (iou : ℕ → ℕ → ℚ) (t : ℚ) :
    ∀ (fuel : ℕ) (r2 r3 : List ℕ),
      List.Perm ((greedyLoop iou t fuel r2 r3).1.map Prod.fst
        ++ (greedyLoop iou t fuel r2 r3).2.1) r2 := by
  intro fuel
  induction fuel with
  | zero => intro r2 r3; simp [greedyLoop_zero]
  | succ n ih =>
    intro r2 r3
    cases h : argmaxPair iou r2 r3 with
    | none => rw [greedyLoop_succ_none t n h]; simp
    | some p =>
      by_cases ht : t ≤ iou p.1 p.2
      · rw [greedyLoop_succ_pos n h ht]
        simp only [List.map_cons, List.cons_append]
        exact ((ih (r2.erase p.1) (r3.erase p.2)).cons p.1).trans
          (List.perm_cons_erase (argmaxPair_mem h).1).symm
      · rw [greedyLoop_succ_neg n h ht]; simp

theorem greedy_perm_snd (iou : ℕ → ℕ → ℚ) (t : ℚ) :
    ∀ (fuel : ℕ) (r2 r3 : List ℕ),
      List.Perm ((greedyLoop iou t fuel r2 r3).1.map Prod.snd
        ++ (greedyLoop iou t fuel r2 r3).2.2) r3 := by
  intro fuel
  induction fuel with
  | zero => intro r2 r3; simp [greedyLoop_zero]
  | succ n ih =>
    intro r2 r3
    cases h : argmaxPair iou r2 r3 with
    | none => rw [greedyLoop_succ_none t n h]; simp
    | some p =>
      by_cases ht : t ≤ iou p.1 p.2
      · rw [greedyLoop_succ_pos n h ht]
        simp only [List.map_cons, List.cons_append]
        exact ((ih (r2.erase p.1) (r3.erase p.2)).cons p.2).trans
          (List.perm_cons_erase (argmaxPair_mem h).2).symm
      · rw [greedyLoop_succ_neg n h ht]; simp

theorem greedy_matched_ge (iou : ℕ → ℕ → ℚ) (t : ℚ) :
    ∀ (fuel : ℕ) (r2 r3 : List ℕ) (p : ℕ × ℕ),
      p ∈ (greedyLoop iou t fuel r2 r3).1 → t ≤ iou p.1 p.2 := by
  intro fuel
  induction fuel with
  | zero => intro r2 r3 p hp; simp [greedyLoop_zero] at hp
  | succ n ih =>
    intro r2 r3 p hp
    cases h : argmaxPair iou r2 r3 with
    | none => rw [greedyLoop_succ_none t n h] at hp; simp at hp
    | some q =>
      by_cases ht : t ≤ iou q.1 q.2
      · rw [greedyLoop_succ_pos n h ht] at hp
        rcases List.mem_cons.mp hp with rfl | hp2
        · exact ht
        · exact ih _ _ p hp2
      · rw [greedyLoop_succ_neg n h ht] at hp; simp at hp

theorem greedy_stop (iou : ℕ → ℕ → ℚ) (t : ℚ) :
    ∀ (fuel : ℕ) (r2 r3 : List ℕ), r2.length ≤ fuel →
      ∀ a ∈ (greedyLoop iou t fuel r2 r3).2.1,
        ∀ b ∈ (greedyLoop iou t fuel r2 r3).2.2, iou a b < t := by
  intro fuel
  induction fuel with
  | zero =>
    intro r2 r3 hlen a ha b hb
    rw [List.length_eq_zero.mp (Nat.le_zero.mp hlen)] at ha
    simp [greedyLoop_zero] at ha
  | succ n ih =>
    intro r2 r3 hlen a ha b hb
    cases h : argmaxPair iou r2 r3 with
    | none =>
      rw [greedyLoop_succ_none t n h] at ha hb
      rcases argmaxPair_eq_none h with h2 | h3
      · rw [h2] at ha; simp at ha
      · rw [h3] at hb; simp at hb
    | some p =>
      by_cases ht : t ≤ iou p.1 p.2
      · rw [greedyLoop_succ_pos n h ht] at ha hb
        have hmem := (argmaxPair_mem h).1
        have hlen2 : (r2.erase p.1).length ≤ n := by
          have := List.length_erase_add_one hmem
          omega
        exact ih (r2.erase p.1) (r3.erase p.2) hlen2 a ha b hb
      · rw [greedyLoop_succ_neg n h ht] at ha hb
        exact lt_of_le_of_lt (argmaxPair_le h a ha b hb) (not_le.mp ht)

theorem greedy_mono (iou : ℕ → ℕ → ℚ) {t t' : ℚ} (htt : t ≤ t') :
    ∀ (fuel : ℕ) (r2 r3 : List ℕ) (p : ℕ × ℕ),
      p ∈ (greedyLoop iou t' fuel r2 r3).1 →
        p ∈ (greedyLoop iou t fuel r2 r3).1 := by
  intro fuel
  induction fuel with
  | zero => intro r2 r3 p hp; simp [greedyLoop_zero] at hp
  | succ n ih =>
    intro r2 r3 p hp
    cases h : argmaxPair iou r2 r3 with
    | none => rw [greedyLoop_succ_none t' n h] at hp; simp at hp
    | some q =>
      by_cases ht' : t' ≤ iou q.1 q.2
      · rw [greedyLoop_succ_pos n h ht'] at hp
        rw [greedyLoop_succ_pos n h (le_trans htt ht')]
        rcases List.mem_cons.mp hp with rfl | hp2
        · exact List.mem_cons_self ..
        · exact List.mem_cons_of_mem _ (ih _ _ p hp2)
      · rw [greedyLoop_succ_neg n h ht'] at hp; simp at hp

/-! ### Auxiliary facts used to assemble the per-frame statements -/

theorem mem_sortedDedup {l : List ℕ} {a : ℕ} : a ∈ sortedDedup l ↔ a ∈ l := by
  unfold sortedDedup
  rw [(List.perm_insertionSort _ _).mem_iff, List.mem_dedup]

theorem sortedDedup_nodup (l : List ℕ) : (sortedDedup l).Nodup :=
  (List.perm_insertionSort _ _).symm.nodup (List.nodup_dedup l)

theorem sortedDedup_nil : sortedDedup [] = [] := rfl

theorem argmaxPair_nil_left {iou : ℕ → ℕ → ℚ} {r3 : List ℕ} :
    argmaxPair iou [] r3 = none := rfl

theorem argmaxPair_nil_right {iou : ℕ → ℕ → ℚ} {r2 : List ℕ} :
    argmaxPair iou r2 [] = none := by
  unfold argmaxPair
  have h : pairTable r2 [] = [] := by
    simp [pairTable]
  rw [h]; rfl

theorem greedyLoop_nil_left (iou : ℕ → ℕ → ℚ) (t : ℚ) (fuel : ℕ) (r3 : List ℕ) :
    greedyLoop iou t fuel [] r3 = ([], [], r3) := by
  cases fuel with
  | zero => rfl
  | succ n => exact greedyLoop_succ_none t n argmaxPair_nil_left

theorem greedyLoop_nil_right (iou : ℕ → ℕ → ℚ) (t : ℚ) (fuel : ℕ) (r2 : List ℕ) :
    greedyLoop iou t fuel r2 [] = ([], r2, []) := by
  cases fuel with
  | zero => rfl
  | succ n => exact greedyLoop_succ_none t n argmaxPair_nil_right

theorem greedy_matched_fst_mem {iou : ℕ → ℕ → ℚ} {t : ℚ} {fuel : ℕ}
    {r2 r3 : List ℕ} {p : ℕ × ℕ} (hp : p ∈ (greedyLoop iou t fuel r2 r3).1) :
    p.1 ∈ r2 :=
  (greedy_perm_fst iou t fuel r2 r3).mem_iff.mp
    (List.mem_append_left _ (List.mem_map_of_mem Prod.fst hp))

theorem greedy_matched_snd_mem {iou : ℕ → ℕ → ℚ} {t : ℚ} {fuel : ℕ}
    {r2 r3 : List ℕ} {p : ℕ × ℕ} (hp : p ∈ (greedyLoop iou t fuel r2 r3).1) :
    p.2 ∈ r3 :=
  (greedy_perm_snd iou t fuel r2 r3).mem_iff.mp
    (List.mem_append_left _ (List.mem_map_of_mem Prod.snd hp))

theorem greedy_rem_fst_mem {iou : ℕ → ℕ → ℚ} {t : ℚ} {fuel : ℕ}
    {r2 r3 : List ℕ} {a : ℕ} (ha : a ∈ (greedyLoop iou t fuel r2 r3).2.1) :
    a ∈ r2 :=
  (greedy_perm_fst iou t fuel r2 r3).mem_iff.mp (List.mem_append_right _ ha)

theorem greedy_rem_snd_mem {iou : ℕ → ℕ → ℚ} {t : ℚ} {fuel : ℕ}
    {r2 r3 : List ℕ} {b : ℕ} (hb : b ∈ (greedyLoop iou t fuel r2 r3).2.2) :
    b ∈ r3 :=
  (greedy_perm_snd iou t fuel r2 r3).mem_iff.mp (List.mem_append_right _ hb)

theorem clampQ_bounds {v lo hi : ℚ} (h : lo ≤ hi) :
    lo ≤ clampQ v lo hi ∧ clampQ v lo hi ≤ hi :=
  ⟨le_min (le_max_right v lo) h, min_le_right _ _⟩

/-! ### Field characterisations of the two variants -/

theorem fpp8_matched_eq (cfg : Config) (inp : FrameInput) :
    (fusion_post_processing8 cfg inp).matched
      = (bothIdx8 inp).map (fun i => (i, i)) ++ (greedy8 cfg inp).1 := rfl

theorem fpp8_only2d_eq (cfg : Config) (inp : FrameInput) :
    (fusion_post_processing8 cfg inp).only2d
      = (greedy8 cfg inp).2.1.reverse.filter
          (fun j => cfg.cls_thresh_2d ≤ inp.score2d j) := rfl

theorem fpp8_dropped2d_eq (cfg : Config) (inp : FrameInput) :
    (fusion_post_processing8 cfg inp).dropped2d
      = (greedy8 cfg inp).2.1.reverse.filter
          (fun j => ¬ cfg.cls_thresh_2d ≤ inp.score2d j) := rfl

theorem fpp8_only3d_eq (cfg : Config) (inp : FrameInput) :
    (fusion_post_processing8 cfg inp).only3d
      = (greedy8 cfg inp).2.2.reverse.filter
          (fun i => cfg.cls_thresh_3d < inp.score3d i) := rfl

theorem fpp8_dropped3d_eq (cfg : Config) (inp : FrameInput) :
    (fusion_post_processing8 cfg inp).dropped3d
      = (greedy8 cfg inp).2.2.reverse.filter
          (fun i => ¬ cfg.cls_thresh_3d < inp.score3d i) := rfl

theorem fpp8_final_eq (cfg : Config) (inp : FrameInput) :
    (fusion_post_processing8 cfg inp).final
      = (bothIdx8 inp).map (fun i => mkMatched inp i i)
        ++ (greedy8 cfg inp).1.map (fun p => mkMatched inp p.1 p.2)
        ++ (fusion_post_processing8 cfg inp).only2d.map (mkOnly2d inp)
        ++ (fusion_post_processing8 cfg inp).only3d.map (mkOnly3d inp) := rfl

theorem fpp9_matched_eq (cfg : Config) (inp : FrameInput) :
    (fusion_post_processing9 cfg inp).matched = (greedy9 cfg inp).1 := rfl

theorem fpp9_only2d_eq (cfg : Config) (inp : FrameInput) :
    (fusion_post_processing9 cfg inp).only2d = [] := rfl

theorem fpp9_only3d_eq (cfg : Config) (inp : FrameInput) :
    (fusion_post_processing9 cfg inp).only3d = [] := rfl

theorem fpp9_dropped2d_eq (cfg : Config) (inp : FrameInput) :
    (fusion_post_processing9 cfg inp).dropped2d = (greedy9 cfg inp).2.1 := rfl

theorem fpp9_dropped3d_eq (cfg : Config) (inp : FrameInput) :
    (fusion_post_processing9 cfg inp).dropped3d = (greedy9 cfg inp).2.2 := rfl

theorem mem_bothIdx8 {inp : FrameInput} {i : ℕ} :
    i ∈ bothIdx8 inp ↔ i ∈ inp.sel2d ∧ i ∈ inp.sel3d := by
  simp [bothIdx8, List.mem_filter, mem_sortedDedup]

theorem mem_rem2of8 {inp : FrameInput} {i : ℕ} :
    i ∈ rem2of8 inp ↔ i ∈ inp.sel2d ∧ i ∉ inp.sel3d := by
  simp [rem2of8, List.mem_filter, mem_sortedDedup]

theorem mem_rem3of8 {inp : FrameInput} {i : ℕ} :
    i ∈ rem3of8 inp ↔ i ∈ inp.sel3d ∧ i ∉ inp.sel2d := by
  simp [rem3of8, List.mem_filter, mem_sortedDedup]

theorem fpp8_mem_only2d {cfg : Config} {inp : FrameInput} {j : ℕ} :
    j ∈ (fusion_post_processing8 cfg inp).only2d
      ↔ j ∈ (greedy8 cfg inp).2.1 ∧ cfg.cls_thresh_2d ≤ inp.score2d j := by
  rw [fpp8_only2d_eq]
  simp [List.mem_filter, List.mem_reverse]

theorem fpp8_mem_dropped2d {cfg : Config} {inp : FrameInput} {j : ℕ} :
    j ∈ (fusion_post_processing8 cfg inp).dropped2d
      ↔ j ∈ (greedy8 cfg inp).2.1 ∧ ¬ cfg.cls_thresh_2d ≤ inp.score2d j := by
  rw [fpp8_dropped2d_eq]
  simp [List.mem_filter, List.mem_reverse]

theorem fpp8_mem_only3d {cfg : Config} {inp : FrameInput} {i : ℕ} :
    i ∈ (fusion_post_processing8 cfg inp).only3d
      ↔ i ∈ (greedy8 cfg inp).2.2 ∧ cfg.cls_thresh_3d < inp.score3d i := by
  rw [fpp8_only3d_eq]
  simp [List.mem_filter, List.mem_reverse]

theorem fpp8_mem_dropped3d {cfg : Config} {inp : FrameInput} {i : ℕ} :
    i ∈ (fusion_post_processing8 cfg inp).dropped3d
      ↔ i ∈ (greedy8 cfg inp).2.2 ∧ ¬ cfg.cls_thresh_3d < inp.score3d i := by
  rw [fpp8_dropped3d_eq]
  simp [List.mem_filter, List.mem_reverse]

theorem salvage_filter_perm (s : ℕ → ℚ) (c : ℚ) (l : List ℕ) :
    List.Perm (l.reverse.filter (fun j => c ≤ s j)
      ++ l.reverse.filter (fun j => ¬ c ≤ s j)) l := by
  have h := List.filter_append_perm (fun j => decide (c ≤ s j)) l.reverse
  have h2 : (fun j => (!decide (c ≤ s j))) = (fun j => decide (¬ c ≤ s j)) := by
    funext j; rw [decide_not]
  rw [h2] at h
  exact h.trans l.reverse_perm

theorem salvage_filter_lt_perm (s : ℕ → ℚ) (c : ℚ) (l : List ℕ) :
    List.Perm (l.reverse.filter (fun j => c < s j)
      ++ l.reverse.filter (fun j => ¬ c < s j)) l := by
  have h := List.filter_append_perm (fun j => decide (c < s j)) l.reverse
  have h2 : (fun j => (!decide (c < s j))) = (fun j => decide (¬ c < s j)) := by
    funext j; rw [decide_not]
  rw [h2] at h
  exact h.trans l.reverse_perm

theorem both_rem2_perm (inp : FrameInput) :
    List.Perm (bothIdx8 inp ++ rem2of8 inp) (sortedDedup inp.sel2d) := by
  have h := List.filter_append_perm
    (fun i => decide (i ∈ sortedDedup inp.sel3d)) (sortedDedup inp.sel2d)
  have h2 : (fun i => (!decide (i ∈ sortedDedup inp.sel3d)))
      = (fun i => decide (i ∉ sortedDedup inp.sel3d)) := by
    funext i; rw [decide_not]
  rw [h2] at h
  exact h

theorem both_rem3_perm (inp : FrameInput) :
    List.Perm (bothIdx8 inp ++ rem3of8 inp) (sortedDedup inp.sel3d) := by
  have hboth : List.Perm (bothIdx8 inp)
      ((sortedDedup inp.sel3d).filter (fun i => i ∈ sortedDedup inp.sel2d)) := by
    refine (List.perm_ext_iff_of_nodup ?_ ?_).mpr ?_
    · exact (sortedDedup_nodup inp.sel2d).filter _
    · exact (sortedDedup_nodup inp.sel3d).filter _
    · intro a
      simp only [bothIdx8, List.mem_filter, decide_eq_true_eq]
      exact and_comm
  have h := List.filter_append_perm
    (fun i => decide (i ∈ sortedDedup inp.sel2d)) (sortedDedup inp.sel3d)
  have h2 : (fun i => (!decide (i ∈ sortedDedup inp.sel2d)))
      = (fun i => decide (i ∉ sortedDedup inp.sel2d)) := by
    funext i; rw [decide_not]
  rw [h2] at h
  exact (hboth.append (List.Perm.refl (rem3of8 inp))).trans h

theorem fpp8_perm_2d (cfg : Config) (inp : FrameInput) :
    List.Perm ((fusion_post_processing8 cfg inp).matched.map Prod.fst
        ++ (fusion_post_processing8 cfg inp).only2d
        ++ (fusion_post_processing8 cfg inp).dropped2d)
      (sortedDedup inp.sel2d) := by
  rw [fpp8_matched_eq, fpp8_only2d_eq, fpp8_dropped2d_eq]
  rw [List.map_append, List.map_map]
  have hid : (Prod.fst ∘ fun i : ℕ => (i, i)) = id := by funext i; rfl
  rw [hid, List.map_id]
  rw [List.append_assoc, List.append_assoc]
  refine List.Perm.trans (List.Perm.append_left (bothIdx8 inp) ?_)
    (both_rem2_perm inp)
  rw [← List.append_assoc]
  refine List.Perm.trans ?_ (greedy_perm_fst (frameIou inp) cfg.iou_thresh
    (rem2of8 inp).length (rem2of8 inp) (rem3of8 inp))
  rw [List.append_assoc]
  exact List.Perm.append_left _ (salvage_filter_perm inp.score2d cfg.cls_thresh_2d _)

theorem fpp8_perm_3d (cfg : Config) (inp : FrameInput) :
    List.Perm ((fusion_post_processing8 cfg inp).matched.map Prod.snd
        ++ (fusion_post_processing8 cfg inp).only3d
        ++ (fusion_post_processing8 cfg inp).dropped3d)
      (sortedDedup inp.sel3d) := by
  rw [fpp8_matched_eq, fpp8_only3d_eq, fpp8_dropped3d_eq]
  rw [List.map_append, List.map_map]
  have hid : (Prod.snd ∘ fun i : ℕ => (i, i)) = id := by funext i; rfl
  rw [hid, List.map_id]
  rw [List.append_assoc, List.append_assoc]
  refine List.Perm.trans (List.Perm.append_left (bothIdx8 inp) ?_)
    (both_rem3_perm inp)
  rw [← List.append_assoc]
  refine List.Perm.trans ?_ (greedy_perm_snd (frameIou inp) cfg.iou_thresh
    (rem2of8 inp).length (rem2of8 inp) (rem3of8 inp))
  rw [List.append_assoc]
  exact List.Perm.append_left _
    (salvage_filter_lt_perm inp.score3d cfg.cls_thresh_3d _)

theorem fpp9_perm_2d (cfg : Config) (inp : FrameInput) :
    List.Perm ((fusion_post_processing9 cfg inp).matched.map Prod.fst
        ++ (fusion_post_processing9 cfg inp).only2d
        ++ (fusion_post_processing9 cfg inp).dropped2d)
      (sortedDedup inp.sel2d) := by
  rw [fpp9_matched_eq, fpp9_only2d_eq, fpp9_dropped2d_eq, List.append_nil]
  exact greedy_perm_fst (frameIou inp) cfg.iou_thresh _ _ _

theorem fpp9_perm_3d (cfg : Config) (inp : FrameInput) :
    List.Perm ((fusion_post_processing9 cfg inp).matched.map Prod.snd
        ++ (fusion_post_processing9 cfg inp).only3d
        ++ (fusion_post_processing9 cfg inp).dropped3d)
      (sortedDedup inp.sel3d) := by
  rw [fpp9_matched_eq, fpp9_only3d_eq, fpp9_dropped3d_eq, List.append_nil]
  exact greedy_perm_snd (frameIou inp) cfg.iou_thresh _ _ _

/-! ### Degenerate-input facts -/

theorem sortedDedup_singleton (a : ℕ) : sortedDedup [a] = [a] := rfl

theorem bothIdx8_empty2d {inp : FrameInput} (h : sortedDedup inp.sel2d = []) :
    bothIdx8 inp = [] := by
  simp [bothIdx8, h]

theorem rem2of8_empty2d {inp : FrameInput} (h : sortedDedup inp.sel2d = []) :
    rem2of8 inp = [] := by
  simp [rem2of8, h]

theorem bothIdx8_empty3d {inp : FrameInput} (h : sortedDedup inp.sel3d = []) :
    bothIdx8 inp = [] := by
  simp [bothIdx8, h]

theorem rem3of8_empty3d {inp : FrameInput} (h : sortedDedup inp.sel3d = []) :
    rem3of8 inp = [] := by
  simp [rem3of8, h]

theorem greedy8_empty2d (cfg : Config) {inp : FrameInput}
    (h : sortedDedup inp.sel2d = []) :
    greedy8 cfg inp = ([], [], rem3of8 inp) := by
  unfold greedy8
  rw [rem2of8_empty2d h]
  exact greedyLoop_nil_left _ _ _ _

theorem greedy8_empty3d (cfg : Config) {inp : FrameInput}
    (h : sortedDedup inp.sel3d = []) :
    greedy8 cfg inp = ([], rem2of8 inp, []) := by
  unfold greedy8
  rw [rem3of8_empty3d h]
  exact greedyLoop_nil_right _ _ _ _

theorem greedy9_empty2d (cfg : Config) {inp : FrameInput}
    (h : sortedDedup inp.sel2d = []) :
    greedy9 cfg inp = ([], [], sortedDedup inp.sel3d) := by
  unfold greedy9
  rw [h]
  exact greedyLoop_nil_left _ _ _ _

theorem greedy9_empty3d (cfg : Config) {inp : FrameInput}
    (h : sortedDedup inp.sel3d = []) :
    greedy9 cfg inp = ([], sortedDedup inp.sel2d, []) := by
  unfold greedy9
  rw [h]
  exact greedyLoop_nil_right _ _ _ _

theorem greedyLoop_pair (iou : ℕ → ℕ → ℚ) {t : ℚ} {j i : ℕ}
    (ht : t ≤ iou j i) (fuel : ℕ) :
    greedyLoop iou t (fuel + 1) [j] [i] = ([(j, i)], [], []) := by
  have ha : argmaxPair iou [j] [i] = some (j, i) := rfl
  rw [greedyLoop_succ_pos fuel ha ht]
  simp [greedyLoop_nil_left]

/-! ### Concrete evaluations (rational arithmetic via norm_num) -/

theorem clampProj_inpPair : clampProj inpPair 1 = boxUnit := by
  show clampBox vrEx boxUnit = boxUnit
  unfold clampBox clampQ vrEx boxUnit
  norm_num [min_def, max_def]

theorem frameIou_inpPair : frameIou inpPair 0 1 = 1 := by
  show boxes_iou_normal boxUnit (clampProj inpPair 1) = 1
  rw [clampProj_inpPair]
  unfold boxes_iou_normal boxUnit
  norm_num [min_def, max_def]

theorem clampProj_inpDisjoint : clampProj inpDisjoint 2 = boxFar := by
  show clampBox vrEx boxFar = boxFar
  unfold clampBox clampQ vrEx boxFar
  norm_num [min_def, max_def]

theorem frameIou_inpDisjoint : frameIou inpDisjoint 1 2 = 0 := by
  show boxes_iou_normal boxUnit (clampProj inpDisjoint 2) = 0
  rw [clampProj_inpDisjoint]
  unfold boxes_iou_normal boxUnit boxFar
  norm_num [min_def, max_def]

theorem greedy9_inpDisjoint : greedy9 cfgOne inpDisjoint = ([], [1], [2]) := by
  have ha : argmaxPair (frameIou inpDisjoint) [1] [2] = some (1, 2) := rfl
  have hlt : ¬ ((1 : ℚ) ≤ frameIou inpDisjoint 1 2) := by
    rw [frameIou_inpDisjoint]
    norm_num
  unfold greedy9
  exact greedyLoop_succ_neg 0 ha hlt

theorem fpp9_inpPair_matched :
    (fusion_post_processing9 cfgOne inpPair).matched = [(0, 1)] := by
  have ht : (1 : ℚ) ≤ frameIou inpPair 0 1 := le_of_eq frameIou_inpPair.symm
  have hg : greedy9 cfgOne inpPair = ([(0, 1)], [], []) := by
    unfold greedy9
    exact greedyLoop_pair (frameIou inpPair) ht 0
  rw [fpp9_matched_eq, hg]

/-! ### The claims -/

/-- C1 (counterexample): in `fusion_post_processing9` the salvage pass is
commented out, so a 3D candidate left unmatched by the greedy loop is
dropped even though its score exceeds `cls_thresh_3d`: with one 2D and
one 3D candidate whose boxes are disjoint (IoU `0 < 1 = iou_thresh`)
and 3D score `2 > 1 = cls_thresh_3d`, candidate 2 lands in `dropped`,
and `only3d` is empty — refuting "keeps it as only-3D if and only if its
score is strictly > cls_thresh_3d" for this function. -/
theorem claim_C1_counterexample :
    cfgOne.cls_thresh_3d < inpDisjoint.score3d 2
    ∧ (2 : ℕ) ∈ (fusion_post_processing9 cfgOne inpDisjoint).dropped3d
    ∧ (fusion_post_processing9 cfgOne inpDisjoint).only3d = []
    ∧ cfgOne.cls_thresh_2d ≤ inpDisjoint.score2d 1
    ∧ (1 : ℕ) ∈ (fusion_post_processing9 cfgOne inpDisjoint).dropped2d
    ∧ (fusion_post_processing9 cfgOne inpDisjoint).only2d = [] := by
  refine ⟨by decide, ?_, rfl, by decide, ?_, rfl⟩
  · rw [fpp9_dropped3d_eq, greedy9_inpDisjoint]
    exact List.mem_singleton.mpr rfl
  · rw [fpp9_dropped2d_eq, greedy9_inpDisjoint]
    exact List.mem_singleton.mpr rfl

/-- C1 (amended): the claimed salvage rule holds in
`fusion_post_processing8` — after the greedy loop stops, a remaining
unmatched 2D candidate is kept as only-2D iff its score is
`≥ cls_thresh_2d`, and a remaining unmatched 3D candidate is kept as
only-3D iff its score is `> cls_thresh_3d` — but in
`fusion_post_processing9` the salvage pass is commented out, so both
salvage groups are always empty and every remaining unmatched candidate
is dropped regardless of its score. -/
theorem claim_C1_salvage (cfg : Config) (inp : FrameInput) :
    (∀ j, (j ∈ (fusion_post_processing8 cfg inp).only2d
        ∨ j ∈ (fusion_post_processing8 cfg inp).dropped2d) →
      (j ∈ (fusion_post_processing8 cfg inp).only2d
        ↔ cfg.cls_thresh_2d ≤ inp.score2d j))
    ∧ (∀ i, (i ∈ (fusion_post_processing8 cfg inp).only3d
        ∨ i ∈ (fusion_post_processing8 cfg inp).dropped3d) →
      (i ∈ (fusion_post_processing8 cfg inp).only3d
        ↔ cfg.cls_thresh_3d < inp.score3d i))
    ∧ (fusion_post_processing9 cfg inp).only2d = []
    ∧ (fusion_post_processing9 cfg inp).only3d = [] := by
  refine ⟨?_, ?_, rfl, rfl⟩
  · intro j hj
    constructor
    · intro h
      exact (fpp8_mem_only2d.mp h).2
    · intro hs
      rcases hj with h | h
      · exact h
      · exact absurd hs (fpp8_mem_dropped2d.mp h).2
  · intro i hi
    constructor
    · intro h
      exact (fpp8_mem_only3d.mp h).2
    · intro hs
      rcases hi with h | h
      · exact h
      · exact absurd hs (fpp8_mem_dropped3d.mp h).2

/-- C1 (witness): candidate 5 of `inpOnly2d` remains unmatched in
variant 8 and is salvaged because its score passes `cls_thresh_2d`. -/
theorem claim_C1_salvage_witness :
    5 ∈ (fusion_post_processing8 cfgOne inpOnly2d).only2d
      ↔ cfgOne.cls_thresh_2d ≤ inpOnly2d.score2d 5 :=
  (claim_C1_salvage cfgOne inpOnly2d).1 5 (Or.inl (by decide))

/-- C2: greedy-stop correctness.  In `fusion_post_processing9` every
committed pair has IoU `≥ iou_thresh` and, once the loop has stopped,
every remaining (2D, 3D) pair — both sides end up in `dropped` — has IoU
`< iou_thresh`; in `fusion_post_processing8` likewise every pair of
leftover candidates (salvaged or dropped) has IoU `< iou_thresh`.  So no
pair at or above the threshold is ever left uncommitted, and nothing is
committed after the first failed maximum. -/
theorem claim_C2_greedy_stop (cfg : Config) (inp : FrameInput) :
    (∀ p ∈ (fusion_post_processing9 cfg inp).matched,
        cfg.iou_thresh ≤ frameIou inp p.1 p.2)
    ∧ (∀ a ∈ (fusion_post_processing9 cfg inp).dropped2d,
        ∀ b ∈ (fusion_post_processing9 cfg inp).dropped3d,
          frameIou inp a b < cfg.iou_thresh)
    ∧ (∀ a, (a ∈ (fusion_post_processing8 cfg inp).only2d
        ∨ a ∈ (fusion_post_processing8 cfg inp).dropped2d) →
       ∀ b, (b ∈ (fusion_post_processing8 cfg inp).only3d
        ∨ b ∈ (fusion_post_processing8 cfg inp).dropped3d) →
          frameIou inp a b < cfg.iou_thresh) := by
  refine ⟨?_, ?_, ?_⟩
  · intro p hp
    rw [fpp9_matched_eq] at hp
    exact greedy_matched_ge (frameIou inp) cfg.iou_thresh _ _ _ p hp
  · intro a ha b hb
    rw [fpp9_dropped2d_eq] at ha
    rw [fpp9_dropped3d_eq] at hb
    exact greedy_stop (frameIou inp) cfg.iou_thresh _ _ _ (le_refl _) a ha b hb
  · intro a ha b hb
    have ha2 : a ∈ (greedy8 cfg inp).2.1 := by
      rcases ha with h | h
      · exact (fpp8_mem_only2d.mp h).1
      · exact (fpp8_mem_dropped2d.mp h).1
    have hb2 : b ∈ (greedy8 cfg inp).2.2 := by
      rcases hb with h | h
      · exact (fpp8_mem_only3d.mp h).1
      · exact (fpp8_mem_dropped3d.mp h).1
    exact greedy_stop (frameIou inp) cfg.iou_thresh _ _ _ (le_refl _) a ha2 b hb2

/-- C2 (witness): in the disjoint frame the loop stops at once and the
leftover pair indeed has IoU below the threshold. -/
theorem claim_C2_greedy_stop_witness :
    frameIou inpDisjoint 1 2 < cfgOne.iou_thresh :=
  (claim_C2_greedy_stop cfgOne inpDisjoint).2.1 1
    (by rw [fpp9_dropped2d_eq, greedy9_inpDisjoint]; exact List.mem_singleton.mpr rfl)
    2
    (by rw [fpp9_dropped3d_eq, greedy9_inpDisjoint]; exact List.mem_singleton.mpr rfl)

/-- C3: partition invariant.  For both variants, the 2D candidate indices
listed in `matched` (first components), `only2d` and `dropped2d` are
jointly a permutation of the deduplicated kept 2D index set, and likewise
on the 3D side; since the reference lists have no duplicates, every
candidate index lands in exactly one group, none is duplicated and none
is lost. -/
theorem claim_C3_partition (cfg : Config) (inp : FrameInput) :
    (List.Perm ((fusion_post_processing8 cfg inp).matched.map Prod.fst
        ++ (fusion_post_processing8 cfg inp).only2d
        ++ (fusion_post_processing8 cfg inp).dropped2d)
      (sortedDedup inp.sel2d)
    ∧ List.Perm ((fusion_post_processing8 cfg inp).matched.map Prod.snd
        ++ (fusion_post_processing8 cfg inp).only3d
        ++ (fusion_post_processing8 cfg inp).dropped3d)
      (sortedDedup inp.sel3d)
    ∧ List.Perm ((fusion_post_processing9 cfg inp).matched.map Prod.fst
        ++ (fusion_post_processing9 cfg inp).only2d
        ++ (fusion_post_processing9 cfg inp).dropped2d)
      (sortedDedup inp.sel2d)
    ∧ List.Perm ((fusion_post_processing9 cfg inp).matched.map Prod.snd
        ++ (fusion_post_processing9 cfg inp).only3d
        ++ (fusion_post_processing9 cfg inp).dropped3d)
      (sortedDedup inp.sel3d))
    ∧ (sortedDedup inp.sel2d).Nodup ∧ (sortedDedup inp.sel3d).Nodup :=
  ⟨⟨fpp8_perm_2d cfg inp, fpp8_perm_3d cfg inp,
    fpp9_perm_2d cfg inp, fpp9_perm_3d cfg inp⟩,
   sortedDedup_nodup inp.sel2d, sortedDedup_nodup inp.sel3d⟩

/-- C4 (counterexample): with an empty 2D candidate set,
`fusion_post_processing9` does not route the surviving 3D candidate by
the `cls_thresh_3d` rule: its score `2` exceeds `cls_thresh_3d = 1`,
yet `only3d` is empty and the candidate is dropped. -/
theorem claim_C4_counterexample :
    inpOnly3d.sel2d = []
    ∧ cfgOne.cls_thresh_3d < inpOnly3d.score3d 0
    ∧ (fusion_post_processing9 cfgOne inpOnly3d).only3d = []
    ∧ (0 : ℕ) ∈ (fusion_post_processing9 cfgOne inpOnly3d).dropped3d := by
  decide

/-- C4 (amended): with an empty 2D candidate set, both variants commit no
matches and salvage no 2D candidate; in `fusion_post_processing8` every
surviving 3D candidate is routed to only-3D exactly when its score passes
the `cls_thresh_3d` rule, while in `fusion_post_processing9` every
surviving 3D candidate is dropped regardless of score. -/
theorem claim_C4_empty2d (cfg : Config) (inp : FrameInput)
    (h2 : inp.sel2d = []) :
    ((fusion_post_processing8 cfg inp).matched = []
      ∧ (fusion_post_processing8 cfg inp).only2d = []
      ∧ (∀ i ∈ sortedDedup inp.sel3d,
          (i ∈ (fusion_post_processing8 cfg inp).only3d
            ↔ cfg.cls_thresh_3d < inp.score3d i)))
    ∧ ((fusion_post_processing9 cfg inp).matched = []
      ∧ (fusion_post_processing9 cfg inp).only2d = []
      ∧ (fusion_post_processing9 cfg inp).only3d = []
      ∧ (fusion_post_processing9 cfg inp).dropped3d = sortedDedup inp.sel3d) := by
  have hs2 : sortedDedup inp.sel2d = [] := by rw [h2]; rfl
  have hg8 := greedy8_empty2d cfg hs2
  have hg9 := greedy9_empty2d cfg hs2
  refine ⟨⟨?_, ?_, ?_⟩, ?_, rfl, rfl, ?_⟩
  · rw [fpp8_matched_eq, bothIdx8_empty2d hs2, hg8]
    rfl
  · rw [fpp8_only2d_eq, hg8]
    rfl
  · intro i hi
    rw [fpp8_mem_only3d, hg8]
    have hmem : i ∈ rem3of8 inp := by
      rw [mem_rem3of8, h2]
      exact ⟨mem_sortedDedup.mp hi, List.not_mem_nil i⟩
    constructor
    · intro h
      exact h.2
    · intro h
      exact ⟨hmem, h⟩
  · rw [fpp9_matched_eq, hg9]
  · rw [fpp9_dropped3d_eq, hg9]

/-- C4 (witness): the empty-2D frame with one confident 3D candidate —
candidate 0 is salvaged by variant 8 because its score passes the rule. -/
theorem claim_C4_empty2d_witness :
    0 ∈ (fusion_post_processing8 cfgOne inpOnly3d).only3d
      ↔ cfgOne.cls_thresh_3d < inpOnly3d.score3d 0 :=
  (claim_C4_empty2d cfgOne inpOnly3d rfl).1.2.2 0 (by decide)

/-- C5: threshold boundary semantics.  A lone 2D/3D pair whose IoU equals
`iou_thresh` exactly is committed as a match (the comparison at line 3201
is inclusive `>=`), while a lone 3D candidate whose score equals
`cls_thresh_3d` exactly is dropped by the 3D salvage of variant 8 (the
comparison at line 2899 is strict `>`). -/
theorem claim_C5_boundary :
    (∀ (cfg : Config) (inp : FrameInput) (j i : ℕ),
        inp.sel2d = [j] → inp.sel3d = [i] →
        frameIou inp j i = cfg.iou_thresh →
        (fusion_post_processing9 cfg inp).matched = [(j, i)])
    ∧ (∀ (cfg : Config) (inp : FrameInput) (i : ℕ),
        inp.sel2d = [] → inp.sel3d = [i] →
        inp.score3d i = cfg.cls_thresh_3d →
        (fusion_post_processing8 cfg inp).only3d = []
          ∧ (fusion_post_processing8 cfg inp).dropped3d = [i]) := by
  constructor
  · intro cfg inp j i h2 h3 hiou
    have hs2 : sortedDedup inp.sel2d = [j] := by
      rw [h2]; exact sortedDedup_singleton j
    have hs3 : sortedDedup inp.sel3d = [i] := by
      rw [h3]; exact sortedDedup_singleton i
    have hg : greedy9 cfg inp = ([(j, i)], [], []) := by
      unfold greedy9
      rw [hs2, hs3]
      exact greedyLoop_pair (frameIou inp) (le_of_eq hiou.symm) 0
    rw [fpp9_matched_eq, hg]
  · intro cfg inp i h2 h3 hsc
    have hs2 : sortedDedup inp.sel2d = [] := by rw [h2]; rfl
    have hs3 : sortedDedup inp.sel3d = [i] := by
      rw [h3]; exact sortedDedup_singleton i
    have hrem3 : rem3of8 inp = [i] := by
      unfold rem3of8
      rw [hs2, hs3]
      simp
    have hg := greedy8_empty2d cfg hs2
    constructor
    · rw [fpp8_only3d_eq, hg, hrem3]
      simp [hsc]
    · rw [fpp8_dropped3d_eq, hg, hrem3]
      simp [hsc]

/-- C5 (witness): the coincident pair with `iou_thresh = 1` is matched at
IoU exactly 1, and the 3D candidate whose score sits exactly at
`cls_thresh_3d = 1` is dropped. -/
theorem claim_C5_boundary_witness :
    (fusion_post_processing9 cfgOne inpPair).matched = [(0, 1)]
    ∧ (fusion_post_processing8 cfgOne inpBoundary3d).only3d = []
    ∧ (fusion_post_processing8 cfgOne inpBoundary3d).dropped3d = [0] :=
  ⟨claim_C5_boundary.1 cfgOne inpPair 0 1 rfl rfl frameIou_inpPair,
   (claim_C5_boundary.2 cfgOne inpBoundary3d 0 rfl rfl rfl).1,
   (claim_C5_boundary.2 cfgOne inpBoundary3d 0 rfl rfl rfl).2⟩

/-- C6 (counterexample): salvaged 2D-only detections ARE emitted with a
3D box.  In `inpOnly2d` the sole emitted detection is the salvaged 2D
candidate 5, and its 3D-box slot holds `box_preds_3d[5]` — the nonzero 3D
proposal box at the 2D candidate's own index (line 2892) — refuting "no
salvaged 2D-only detection is emitted with a 3D box". -/
theorem claim_C6_counterexample :
    (fusion_post_processing8 cfgOne inpOnly2d).only2d = [5]
    ∧ (fusion_post_processing8 cfgOne inpOnly2d).final.map FinalDet.b3
        = [⟨1, 2, 3, 4, 5, 6, 7⟩]
    ∧ inpOnly2d.box3d 5 = ⟨1, 2, 3, 4, 5, 6, 7⟩ := by
  decide

/-- C6 (amended): in `fusion_post_processing8` every salvaged 3D-only
detection is emitted with a 2D box equal to its ValidRange-clamped
projected footprint and with 2D score and label copied from its 3D score
and label; and every salvaged 2D-only detection is emitted with the 3D
proposal box at its own index (`box_preds_3d[idx2d]`) as its 3D box,
with its 3D score and label copied from its 2D score and label. -/
theorem claim_C6_surrogate (cfg : Config) (inp : FrameInput) :
    (∀ i ∈ (fusion_post_processing8 cfg inp).only3d,
      ({ s2 := inp.score3d i, l2 := inp.label3d i
         b2 := clampBox inp.vr (inp.rawProj i)
         s3 := inp.score3d i, l3 := inp.label3d i
         b3 := inp.box3d i } : FinalDet)
        ∈ (fusion_post_processing8 cfg inp).final)
    ∧ (∀ j ∈ (fusion_post_processing8 cfg inp).only2d,
      ({ s2 := inp.score2d j, l2 := inp.label2d j, b2 := inp.box2d j
         s3 := inp.score2d j, l3 := inp.label2d j
         b3 := inp.box3d j } : FinalDet)
        ∈ (fusion_post_processing8 cfg inp).final) := by
  constructor
  · intro i hi
    rw [fpp8_final_eq]
    exact List.mem_append_right _ (List.mem_map_of_mem (mkOnly3d inp) hi)
  · intro j hj
    rw [fpp8_final_eq]
    exact List.mem_append_left _
      (List.mem_append_right _ (List.mem_map_of_mem (mkOnly2d inp) hj))

/-- C6 (witness): the salvaged 3D-only candidate of `inpOnly3d` is
emitted with its clamped footprint and copied score/label. -/
theorem claim_C6_surrogate_witness :
    ({ s2 := inpOnly3d.score3d 0, l2 := inpOnly3d.label3d 0
       b2 := clampBox inpOnly3d.vr (inpOnly3d.rawProj 0)
       s3 := inpOnly3d.score3d 0, l3 := inpOnly3d.label3d 0
       b3 := inpOnly3d.box3d 0 } : FinalDet)
      ∈ (fusion_post_processing8 cfgOne inpOnly3d).final :=
  (claim_C6_surrogate cfgOne inpOnly3d).1 0 (by decide)

/-- C7: projection clamping.  Whenever the frame's valid range is
nondegenerate (`x_min ≤ x_max - 1`, `y_min ≤ y_max - 1`), each coordinate
of the clamped projected footprint of every selected 3D candidate lies in
the claimed interval, and the IoU-matrix entry fed to the matcher is
computed from exactly that clamped box, never the raw projection. -/
theorem claim_C7_clamp (inp : FrameInput) (i : ℕ)
    (hx : inp.vr.xmin ≤ inp.vr.xmax - 1) (hy : inp.vr.ymin ≤ inp.vr.ymax - 1) :
    (inp.vr.xmin ≤ (clampProj inp i).x1 ∧ (clampProj inp i).x1 ≤ inp.vr.xmax - 1)
    ∧ (inp.vr.xmin ≤ (clampProj inp i).x2 ∧ (clampProj inp i).x2 ≤ inp.vr.xmax - 1)
    ∧ (inp.vr.ymin ≤ (clampProj inp i).y1 ∧ (clampProj inp i).y1 ≤ inp.vr.ymax - 1)
    ∧ (inp.vr.ymin ≤ (clampProj inp i).y2 ∧ (clampProj inp i).y2 ≤ inp.vr.ymax - 1)
    ∧ (∀ j, frameIou inp j i = boxes_iou_normal (inp.box2d j) (clampProj inp i)) :=
  ⟨clampQ_bounds hx, clampQ_bounds hx, clampQ_bounds hy, clampQ_bounds hy,
   fun _ => rfl⟩

/-- C7 (witness): the clamped footprint of `inpPair`'s 3D candidate lies
inside the valid range. -/
theorem claim_C7_clamp_witness :
    inpPair.vr.xmin ≤ (clampProj inpPair 1).x1
    ∧ (clampProj inpPair 1).x1 ≤ inpPair.vr.xmax - 1 :=
  (claim_C7_clamp inpPair 1 (by show (0 : ℚ) ≤ 10 - 1; norm_num)
    (by show (0 : ℚ) ≤ 10 - 1; norm_num)).1

/-- C8: empty-side totality.  If either candidate set is empty, both
variants commit no matched pairs (the matching is skipped rather than
failing); with both sets empty every group and the emitted record list of
both variants are empty.  The embedding is total, mirroring the source's
explicit guard that replaces a zero-sized IoU matrix before any
`torch.max` and the loop branch that skips `argmax` when either index
list is empty. -/
theorem claim_C8_empty_total (cfg : Config) (inp : FrameInput) :
    (inp.sel2d = [] →
      (fusion_post_processing8 cfg inp).matched = []
      ∧ (fusion_post_processing9 cfg inp).matched = [])
    ∧ (inp.sel3d = [] →
      (fusion_post_processing8 cfg inp).matched = []
      ∧ (fusion_post_processing9 cfg inp).matched = [])
    ∧ (inp.sel2d = [] → inp.sel3d = [] →
      ((fusion_post_processing8 cfg inp).matched = []
        ∧ (fusion_post_processing8 cfg inp).only2d = []
        ∧ (fusion_post_processing8 cfg inp).only3d = []
        ∧ (fusion_post_processing8 cfg inp).dropped2d = []
        ∧ (fusion_post_processing8 cfg inp).dropped3d = []
        ∧ (fusion_post_processing8 cfg inp).final = [])
      ∧ ((fusion_post_processing9 cfg inp).matched = []
        ∧ (fusion_post_processing9 cfg inp).only2d = []
        ∧ (fusion_post_processing9 cfg inp).only3d = []
        ∧ (fusion_post_processing9 cfg inp).dropped2d = []
        ∧ (fusion_post_processing9 cfg inp).dropped3d = []
        ∧ (fusion_post_processing9 cfg inp).final = [])) := by
  refine ⟨?_, ?_, ?_⟩
  · intro h2
    have hs2 : sortedDedup inp.sel2d = [] := by rw [h2]; rfl
    constructor
    · rw [fpp8_matched_eq, bothIdx8_empty2d hs2, greedy8_empty2d cfg hs2]
      rfl
    · rw [fpp9_matched_eq, greedy9_empty2d cfg hs2]
  · intro h3
    have hs3 : sortedDedup inp.sel3d = [] := by rw [h3]; rfl
    constructor
    · rw [fpp8_matched_eq, bothIdx8_empty3d hs3, greedy8_empty3d cfg hs3]
      rfl
    · rw [fpp9_matched_eq, greedy9_empty3d cfg hs3]
  · intro h2 h3
    have hs2 : sortedDedup inp.sel2d = [] := by rw [h2]; rfl
    have hs3 : sortedDedup inp.sel3d = [] := by rw [h3]; rfl
    have hg8 : greedy8 cfg inp = ([], [], []) := by
      rw [greedy8_empty2d cfg hs2, rem3of8_empty3d hs3]
    have hg9 : greedy9 cfg inp = ([], [], []) := by
      rw [greedy9_empty2d cfg hs2, hs3]
    have hb : bothIdx8 inp = [] := bothIdx8_empty2d hs2
    have ho2 : (fusion_post_processing8 cfg inp).only2d = [] := by
      rw [fpp8_only2d_eq, hg8]; rfl
    have ho3 : (fusion_post_processing8 cfg inp).only3d = [] := by
      rw [fpp8_only3d_eq, hg8]; rfl
    refine ⟨⟨?_, ho2, ho3, ?_, ?_, ?_⟩, ?_, rfl, rfl, ?_, ?_, ?_⟩
    · rw [fpp8_matched_eq, hb, hg8]; rfl
    · rw [fpp8_dropped2d_eq, hg8]; rfl
    · rw [fpp8_dropped3d_eq, hg8]; rfl
    · rw [fpp8_final_eq, hb, hg8, ho2, ho3]; rfl
    · rw [fpp9_matched_eq, hg9]
    · rw [fpp9_dropped2d_eq, hg9]
    · rw [fpp9_dropped3d_eq, hg9]
    · show ((greedy9 cfg inp).1.map fun p => mkMatched inp p.1 p.2) = []
      rw [hg9]; rfl

/-- C8 (witness): the frame with both candidate sets empty yields an
entirely empty association result. -/
theorem claim_C8_empty_total_witness :
    (fusion_post_processing9 cfgOne inpEmpty).matched = []
    ∧ (fusion_post_processing8 cfgOne inpEmpty).final = [] :=
  ⟨((claim_C8_empty_total cfgOne inpEmpty).2.2 rfl rfl).2.1,
   ((claim_C8_empty_total cfgOne inpEmpty).2.2 rfl rfl).1.2.2.2.2.2⟩

/-- C9: monotonicity in `iou_thresh`.  For a fixed frame and fixed salvage
thresholds, every pair matched under the larger threshold `t'` is also
matched under the smaller `t`, in both variants: the greedy loop's argmax
choices do not depend on the threshold, so raising it only cuts the
commit sequence short.  Hence no candidate can move from a salvage or
dropped group into `matched` when the threshold is raised. -/
theorem claim_C9_mono (inp : FrameInput) (c2 c3 t t' : ℚ) (h : t ≤ t') :
    (∀ p ∈ (fusion_post_processing9 ⟨t', c2, c3⟩ inp).matched,
        p ∈ (fusion_post_processing9 ⟨t, c2, c3⟩ inp).matched)
    ∧ (∀ p ∈ (fusion_post_processing8 ⟨t', c2, c3⟩ inp).matched,
        p ∈ (fusion_post_processing8 ⟨t, c2, c3⟩ inp).matched) := by
  constructor
  · intro p hp
    rw [fpp9_matched_eq] at hp ⊢
    unfold greedy9 at hp ⊢
    exact greedy_mono (frameIou inp) h _ _ _ p hp
  · intro p hp
    rw [fpp8_matched_eq] at hp ⊢
    rcases List.mem_append.mp hp with h1 | h1
    · exact List.mem_append_left _ h1
    · refine List.mem_append_right _ ?_
      unfold greedy8 at h1 ⊢
      exact greedy_mono (frameIou inp) h _ _ _ p h1

/-- C9 (witness): the pair matched at `iou_thresh = 1` is also matched at
`iou_thresh = 0`. -/
theorem claim_C9_mono_witness :
    ((0, 1) : ℕ × ℕ) ∈ (fusion_post_processing9 ⟨0, 1, 1⟩ inpPair).matched :=
  (claim_C9_mono inpPair 1 1 0 1 (by norm_num)).1 (0, 1)
    (by show (0, 1) ∈ (fusion_post_processing9 cfgOne inpPair).matched
        rw [fpp9_inpPair_matched]
        exact List.mem_singleton.mpr rfl)

/-- C10: index-identity pre-matching in `fusion_post_processing8`.  Any
proposal index kept by both branches is committed to `matched` as the
pair `(idx, idx)` before the greedy loop, for every configuration — in
particular regardless of the IoU between the two boxes and of
`iou_thresh` — and it appears in no other group; any matched pair
involving it is exactly `(idx, idx)`. -/
theorem claim_C10_identity_prematch (cfg : Config) (inp : FrameInput)
    (idx : ℕ) (h2 : idx ∈ inp.sel2d) (h3 : idx ∈ inp.sel3d) :
    (idx, idx) ∈ (fusion_post_processing8 cfg inp).matched
    ∧ idx ∉ (fusion_post_processing8 cfg inp).only2d
    ∧ idx ∉ (fusion_post_processing8 cfg inp).dropped2d
    ∧ idx ∉ (fusion_post_processing8 cfg inp).only3d
    ∧ idx ∉ (fusion_post_processing8 cfg inp).dropped3d
    ∧ (∀ p ∈ (fusion_post_processing8 cfg inp).matched,
        (p.1 = idx ∨ p.2 = idx) → p = (idx, idx)) := by
  have hB : idx ∈ bothIdx8 inp := mem_bothIdx8.mpr ⟨h2, h3⟩
  refine ⟨?_, ?_, ?_, ?_, ?_, ?_⟩
  · rw [fpp8_matched_eq]
    exact List.mem_append_left _ (List.mem_map_of_mem (fun i => (i, i)) hB)
  · intro hmem
    have hg := (fpp8_mem_only2d.mp hmem).1
    unfold greedy8 at hg
    exact (mem_rem2of8.mp (greedy_rem_fst_mem hg)).2 h3
  · intro hmem
    have hg := (fpp8_mem_dropped2d.mp hmem).1
    unfold greedy8 at hg
    exact (mem_rem2of8.mp (greedy_rem_fst_mem hg)).2 h3
  · intro hmem
    have hg := (fpp8_mem_only3d.mp hmem).1
    unfold greedy8 at hg
    exact (mem_rem3of8.mp (greedy_rem_snd_mem hg)).2 h2
  · intro hmem
    have hg := (fpp8_mem_dropped3d.mp hmem).1
    unfold greedy8 at hg
    exact (mem_rem3of8.mp (greedy_rem_snd_mem hg)).2 h2
  · intro p hp hor
    rw [fpp8_matched_eq] at hp
    rcases List.mem_append.mp hp with h1 | h1
    · obtain ⟨a, _, rfl⟩ := List.mem_map.mp h1
      rcases hor with he | he
      · rw [show a = idx from he]
      · rw [show a = idx from he]
    · exfalso
      unfold greedy8 at h1
      rcases hor with he | he
      · refine (mem_rem2of8.mp (greedy_matched_fst_mem h1)).2 ?_
        rw [he]; exact h3
      · refine (mem_rem3of8.mp (greedy_matched_snd_mem h1)).2 ?_
        rw [he]; exact h2

/-- C10 (witness): proposal 3, kept by both branches of `inpShared`, is
pre-matched although its boxes are disjoint (IoU 0 < iou_thresh) and its
scores are below every threshold. -/
theorem claim_C10_identity_witness :
    ((3, 3) : ℕ × ℕ) ∈ (fusion_post_processing8 cfgOne inpShared).matched :=
  (claim_C10_identity_prematch cfgOne inpShared 3 (by decide) (by decide)).1

end CTS
